import Mathlib

/-!
Verification of the AI-scheduler backend's orchestration core.

The Lean definitions below are a shallow embedding of the Python sources
(`ai_engine.py`, `crud.py`, `schemas.py`, `models.py`):

* Python strings are Lean `String`s, and Python string primitives
  (`str.strip`, `str.replace`, `str.lower`, `str.join`, truthiness) are
  re-implemented over `List Char` so that all definitions compute by kernel
  reduction.
* `datetime` values are modelled as `Int` timestamps counted in seconds from
  the Unix epoch; `timedelta.days` is floored division by 86400 exactly as in
  Python (`Int.fdiv`).
* The SQLAlchemy store is a pure record `Db` threaded explicitly through
  every operation; a query returns the store unchanged.
* Network effects are parameters: the Google custom-search provider is a
  function `net : String → Nat → SearchOutcome` (query and requested result
  count), and the Gemini model is `llm : String → Except String String`
  (prompt to raw response text, or a raised exception's message).
* `json.loads` is modelled by an executable recursive-descent JSON reader
  (JSON numbers are modelled as integers; no claim involves fractional
  numbers), and pydantic-v2 validation of the response schema by an
  executable validator that, like pydantic, ignores unknown keys.
-/

-- ------------------------------------------------------------------
-- Python string primitives, re-implemented to compute by kernel reduction
-- ------------------------------------------------------------------

/-- Is `pat` a prefix of `cs`? -/
def charsPrefix : List Char → List Char → Bool
  | [], _ => true
  | _ :: _, [] => false
  | a :: as, b :: bs => a = b && charsPrefix as bs

/-- Does `needle` occur as a contiguous substring of `hay`?  Python's
`needle in hay`. -/
def charsContains (needle : List Char) : List Char → Bool
  | [] => needle.isEmpty
  | c :: rest => charsPrefix needle (c :: rest) || charsContains needle rest

/-- Python `needle in hay` on strings. -/
def strContains (hay needle : String) : Bool :=
  charsContains needle.toList hay.toList

/-- One replacement pass of Python `str.replace`, fuelled to stay
structurally recursive (the fuel is the length of the subject, enough for
any non-empty pattern). -/
def pyReplaceGo (pat repl : List Char) : Nat → List Char → List Char
  | 0, cs => cs
  | fuel + 1, cs =>
    match cs with
    | [] => []
    | c :: rest =>
      if charsPrefix pat cs then
        repl ++ pyReplaceGo pat repl fuel (List.drop pat.length cs)
      else
        c :: pyReplaceGo pat repl fuel rest

/-- Python `s.replace(pat, repl)`: every occurrence, left to right. -/
def pyReplace (s pat repl : String) : String :=
  String.mk (pyReplaceGo pat.toList repl.toList s.length s.toList)

/-- Python `s.strip()`: drop leading and trailing whitespace. -/
def pyStrip (s : String) : String :=
  String.mk (((s.toList.dropWhile Char.isWhitespace).reverse.dropWhile Char.isWhitespace).reverse)

/-- Python `s.lower()` (ASCII letters; the Korean keywords are caseless). -/
def pyLower (s : String) : String :=
  String.mk (s.toList.map Char.toLower)

/-- Python `sep.join(xs)`. -/
def pyJoin (sep : String) : List String → String
  | [] => ""
  | [s] => s
  | s :: rest => s ++ sep ++ pyJoin sep rest

/-- Truthiness of a Python optional string: `None` and `""` are falsy. -/
def optTruthy : Option String → Bool
  | none => false
  | some s => decide (s ≠ "")

/-- Python `f"{x}"` for an optional string: `None` prints as `"None"`. -/
def pyStrOpt : Option String → String
  | none => "None"
  | some s => s

/-- Zero-padded decimal rendering of a natural number, width `w`. -/
def padNat (w : Nat) (n : Nat) : String :=
  let s := toString n
  String.mk (List.replicate (w - s.length) '0') ++ s

-- ------------------------------------------------------------------
-- Calendar arithmetic (proleptic Gregorian, as used by Python datetime)
-- ------------------------------------------------------------------

/-- Number of days from 1970-01-01 to the given civil date (standard
era-based conversion). -/
def daysFromCivil (y : Int) (m d : Nat) : Int :=
  let yAdj : Int := if m ≤ 2 then y - 1 else y
  let era : Int := yAdj.fdiv 400
  let yoe : Nat := (yAdj - era * 400).toNat
  let mp : Nat := if m > 2 then m - 3 else m + 9
  let doy : Nat := (153 * mp + 2) / 5 + d - 1
  let doe : Nat := yoe * 365 + yoe / 4 - yoe / 100 + doy
  era * 146097 + (doe : Int) - 719468

/-- Civil date (year, month, day) of a day count from 1970-01-01. -/
def civilFromDays (z : Int) : Int × Nat × Nat :=
  let z' : Int := z + 719468
  let era : Int := z'.fdiv 146097
  let doe : Nat := (z' - era * 146097).toNat
  let yoe : Nat := (doe - doe / 1460 + doe / 36524 - doe / 146096) / 365
  let doy : Nat := doe - (365 * yoe + yoe / 4 - yoe / 100)
  let mp : Nat := (5 * doy + 2) / 153
  let d : Nat := doy - (153 * mp + 2) / 5 + 1
  let m : Nat := if mp < 10 then mp + 3 else mp - 9
  (((yoe : Int) + era * 400) + (if m ≤ 2 then 1 else 0), m, d)

def isLeapYear (y : Int) : Bool :=
  y % 4 = 0 && (y % 100 ≠ 0 || y % 400 = 0)

def daysInMonth (y : Int) (m : Nat) : Nat :=
  if m = 2 then (if isLeapYear y then 29 else 28)
  else if m = 4 ∨ m = 6 ∨ m = 9 ∨ m = 11 then 30
  else 31

/-- `datetime.fromisoformat` at the `YYYY-MM-DD` boundary format used by the
recommendation request (the spec fixes dates at the boundary to this form);
any other string is a parse failure (`ValueError` in Python).  The result is
the timestamp of midnight of that day. -/
def parseIsoDate (s : String) : Option Int :=
  match s.toList with
  | [y1, y2, y3, y4, '-', m1, m2, '-', d1, d2] =>
    if (y1.isDigit && y2.isDigit && y3.isDigit && y4.isDigit &&
        m1.isDigit && m2.isDigit && d1.isDigit && d2.isDigit) then
      let y : Int := ((y1.toNat - 48) * 1000 + (y2.toNat - 48) * 100 +
                      (y3.toNat - 48) * 10 + (y4.toNat - 48) : Nat)
      let m : Nat := (m1.toNat - 48) * 10 + (m2.toNat - 48)
      let d : Nat := (d1.toNat - 48) * 10 + (d2.toNat - 48)
      if 1 ≤ m ∧ m ≤ 12 ∧ 1 ≤ d ∧ d ≤ daysInMonth y m then
        some (86400 * daysFromCivil y m d)
      else none
    else none
  | _ => none

/-- `strftime("%Y-%m-%d")` of a timestamp. -/
def ymdStr (t : Int) : String :=
  let c := civilFromDays (t.fdiv 86400)
  let yr : Int := c.1
  padNat 4 yr.toNat ++ "-" ++ padNat 2 c.2.1 ++ "-" ++ padNat 2 c.2.2

/-- `strftime("%H:%M")` of a timestamp. -/
def hmStr (t : Int) : String :=
  let secs : Nat := (t.emod 86400).toNat
  padNat 2 (secs / 3600) ++ ":" ++ padNat 2 (secs % 3600 / 60)

/-- `strftime("%Y-%m-%d %H:%M")` of a timestamp. -/
def ymdHmStr (t : Int) : String :=
  ymdStr t ++ " " ++ hmStr t

/-- `datetime.year` of a timestamp. -/
def yearOf (t : Int) : Int :=
  (civilFromDays (t.fdiv 86400)).1

-- ------------------------------------------------------------------
-- Data model (models.py / schemas.py)
-- ------------------------------------------------------------------

/-- The singleton persona record (`models.Persona`). -/
structure Persona where
  id : Nat
  persona_text : String
  preferred_times : Option (List String)
  focus_duration : Option String
  location : Option String
  created_at : Int
  updated_at : Option Int
deriving DecidableEq, Repr

/-- `schemas.PersonaCreate`: the payload of a persona upsert. -/
structure PersonaCreate where
  persona_text : String
  preferred_times : Option (List String)
  focus_duration : Option String
  location : Option String
deriving DecidableEq, Repr

/-- A calendar event record (`models.Schedule`). -/
structure Schedule where
  id : Nat
  title : String
  description : Option String
  start_datetime : Int
  end_datetime : Int
  is_ai_generated : Bool
  ai_reason : Option String
  is_completed : Bool
deriving DecidableEq, Repr

/-- The persistent store: at most one persona and the schedule table. -/
structure Db where
  persona : Option Persona
  schedules : List Schedule
deriving DecidableEq, Repr

/-- `schemas.AIRecommendationRequest`. -/
structure AIRecommendationRequest where
  prompt : String
  start_date : String
  end_date : String
deriving DecidableEq, Repr

/-- `schemas.AIRecommendationResponseSchedule`. -/
structure AIRecommendationResponseSchedule where
  title : String
  date : String
  start_time : String
  end_time : String
  reason : String
deriving DecidableEq, Repr

/-- `schemas.AIRecommendationResponse`. -/
structure AIRecommendationResponse where
  schedules : List AIRecommendationResponseSchedule
  summary : String
deriving DecidableEq, Repr

-- ------------------------------------------------------------------
-- crud.py
-- ------------------------------------------------------------------

/-- `crud.get_persona`: the first (only) persona row, if any. -/
def get_persona (db : Db) : Option Persona :=
  db.persona

/-- `crud.create_or_update_persona`: update the existing row in place
(stamping `updated_at`), or insert a fresh row.  `now` models the clock used
for the timestamp columns. -/
def create_or_update_persona (db : Db) (now : Int) (p : PersonaCreate) : Db × Persona :=
  match db.persona with
  | some old =>
    let updated : Persona :=
      { old with
        persona_text := p.persona_text
        preferred_times := p.preferred_times
        focus_duration := p.focus_duration
        location := p.location
        updated_at := some now }
    ({ db with persona := some updated }, updated)
  | none =>
    let created : Persona :=
      { id := 1
        persona_text := p.persona_text
        preferred_times := p.preferred_times
        focus_duration := p.focus_duration
        location := p.location
        created_at := now
        updated_at := none }
    ({ db with persona := some created }, created)

/-- Ordering used by `ORDER BY start_datetime`. -/
def scheduleLE (a b : Schedule) : Prop :=
  a.start_datetime ≤ b.start_datetime

instance : DecidableRel scheduleLE :=
  fun a b => Int.decLe a.start_datetime b.start_datetime

instance : IsTotal Schedule scheduleLE :=
  ⟨fun a b => Int.le_total a.start_datetime b.start_datetime⟩

instance : IsTrans Schedule scheduleLE :=
  ⟨fun _ _ _ => Int.le_trans⟩

/-- The row filter of `crud.get_schedules_by_date_range`. -/
def inRange (s e : Int) (sc : Schedule) : Bool :=
  s ≤ sc.start_datetime && sc.end_datetime ≤ e

/-- `crud.get_schedules_by_date_range`: rows whose start and end both fall
in the range, ordered by start ascending. -/
def get_schedules_by_date_range (schedules : List Schedule) (s e : Int) : List Schedule :=
  List.insertionSort scheduleLE (schedules.filter (inRange s e))

/-- C5: for every date range `(s, e)`, `getSchedules(s, e)` returns exactly
the stored schedules with `start >= s` and `end <= e` (as a permutation of
that filtered table) and the result is ordered by start time ascending. -/
theorem C5_get_schedules_filter_sorted (db : List Schedule) (s e : Int) :
    (get_schedules_by_date_range db s e).Perm (db.filter (inRange s e))
    ∧ List.Sorted scheduleLE (get_schedules_by_date_range db s e) := by
  exact ⟨List.perm_insertionSort scheduleLE (db.filter (inRange s e)),
    List.sorted_insertionSort scheduleLE (db.filter (inRange s e))⟩

-- ------------------------------------------------------------------
-- External search tool (ai_engine.py, _execute_web_search and wrappers)
-- ------------------------------------------------------------------

/-- The two Google custom-search credentials read from the environment. -/
structure SearchConfig where
  google_api_key : Option String
  custom_search_engine_id : Option String
deriving DecidableEq, Repr

/-- One search result as consumed by the code: an object whose `snippet`
field may be absent (`item.get('snippet', '')`). -/
structure SearchItem where
  snippet : Option String
deriving DecidableEq, Repr

/-- What the provider call can do, seen from the caller: return a result
object with an `items` list, return one without `items`, raise `HttpError`
with a status, or raise any other (transport-level) exception. -/
inductive SearchOutcome where
  | success (items : List SearchItem)
  | missingItems
  | httpError (status : Nat)
  | transportError
deriving DecidableEq, Repr

def notConfiguredSentinel : String :=
  "Web search is not configured. GOOGLE_API_KEY or CUSTOM_SEARCH_ENGINE_ID is missing."

def noRelevantSentinel : String :=
  "No relevant information found."

def unexpectedErrorSentinel : String :=
  "An unexpected error occurred during web search."

def httpErrorResult (status : Nat) : String :=
  "Web search failed with HTTP error: " ++ toString status

/-- `" ".join(snippets).replace('\n', ' ').strip()`. -/
def joinSnippets (items : List SearchItem) : String :=
  pyStrip (pyReplace (pyJoin " " (items.map (fun it => it.snippet.getD ""))) "\n" " ")

/-- `_execute_web_search`: the never-throw search boundary.  `net` models the
provider (query text and requested result count `num`); every exception path
of the source is a sentinel string here, so the function is total. -/
def execute_web_search (cfg : SearchConfig) (net : String → Nat → SearchOutcome)
    (query : String) : String :=
  if !optTruthy cfg.google_api_key || !optTruthy cfg.custom_search_engine_id then
    notConfiguredSentinel
  else
    match net query 3 with
    | SearchOutcome.missingItems => noRelevantSentinel
    | SearchOutcome.success items => joinSnippets items
    | SearchOutcome.httpError st => httpErrorResult st
    | SearchOutcome.transportError => unexpectedErrorSentinel

/-- `_search_public_holidays`: query template around the generic tool. -/
def search_public_holidays (cfg : SearchConfig) (net : String → Nat → SearchOutcome)
    (location : String) (start_dt : Int) : String :=
  execute_web_search cfg net ("public holidays in " ++ location ++ " " ++ toString (yearOf start_dt))

def nearFutureSentinel : String :=
  "Weather forecast is only available for the near future (within 10 days)."

/-- The weather query template. -/
def weatherQuery (location : String) (start_dt : Int) : String :=
  "weather forecast for " ++ location ++ " on " ++ ymdStr start_dt

/-- `_search_weather_forecast`: the freshness guard
`(start_date - datetime.now()).days > 10` (Python `timedelta.days` floors,
hence `Int.fdiv`), then the templated web search.  The second component
records the queries handed to `_execute_web_search`, so that "no call is
issued" is observable. -/
def search_weather_forecast (cfg : SearchConfig) (net : String → Nat → SearchOutcome)
    (now : Int) (location : String) (start_dt : Int) : String × List String :=
  if (start_dt - now).fdiv 86400 > 10 then
    (nearFutureSentinel, [])
  else
    (execute_web_search cfg net (weatherQuery location start_dt), [weatherQuery location start_dt])

/-- C3: for every configuration, provider behaviour and query, the search
tool returns normally (it is a total function of the provider's outcome:
every exception path of the source is absorbed), and the returned string is
the "not configured" sentinel, the "no relevant information" sentinel, an
HTTP-failure description, the unexpected-failure sentinel, or the
whitespace-normalised concatenation of the snippets of at most 3 results
(the call requests `num=3`; the hypothesis states that the provider honours
the requested result count). -/
theorem C3_search_never_raises (cfg : SearchConfig) (net : String → Nat → SearchOutcome)
    (query : String)
    (hnet : ∀ q n items, net q n = SearchOutcome.success items → items.length ≤ n) :
    execute_web_search cfg net query = notConfiguredSentinel
    ∨ execute_web_search cfg net query = noRelevantSentinel
    ∨ (∃ st, execute_web_search cfg net query = httpErrorResult st)
    ∨ execute_web_search cfg net query = unexpectedErrorSentinel
    ∨ (∃ items, net query 3 = SearchOutcome.success items ∧ items.length ≤ 3
        ∧ execute_web_search cfg net query = joinSnippets items) := by
  unfold execute_web_search
  by_cases hc : (!optTruthy cfg.google_api_key || !optTruthy cfg.custom_search_engine_id) = true
  · rw [if_pos hc]
    exact Or.inl rfl
  · rw [if_neg hc]
    cases hn : net query 3 with
    | success items =>
      exact Or.inr (Or.inr (Or.inr (Or.inr ⟨items, rfl, hnet query 3 items hn, rfl⟩)))
    | missingItems => exact Or.inr (Or.inl rfl)
    | httpError st => exact Or.inr (Or.inr (Or.inl ⟨st, rfl⟩))
    | transportError => exact Or.inr (Or.inr (Or.inr (Or.inl rfl)))

/-- A provider stub that always reports a result object without `items`. -/
def netNoItems : String → Nat → SearchOutcome :=
  fun _ _ => SearchOutcome.missingItems

/-- An unconfigured provider. -/
def cfgUnconfigured : SearchConfig :=
  { google_api_key := none, custom_search_engine_id := none }

/-- Witness for C3 at a concrete configuration, provider and query. -/
theorem C3_search_never_raises_witness :
    execute_web_search cfgUnconfigured netNoItems "public holidays in Seoul, Korea 2025" = notConfiguredSentinel
    ∨ execute_web_search cfgUnconfigured netNoItems "public holidays in Seoul, Korea 2025" = noRelevantSentinel
    ∨ (∃ st, execute_web_search cfgUnconfigured netNoItems "public holidays in Seoul, Korea 2025" = httpErrorResult st)
    ∨ execute_web_search cfgUnconfigured netNoItems "public holidays in Seoul, Korea 2025" = unexpectedErrorSentinel
    ∨ (∃ items, netNoItems "public holidays in Seoul, Korea 2025" 3 = SearchOutcome.success items
        ∧ items.length ≤ 3
        ∧ execute_web_search cfgUnconfigured netNoItems "public holidays in Seoul, Korea 2025" = joinSnippets items) :=
  C3_search_never_raises cfgUnconfigured netNoItems "public holidays in Seoul, Korea 2025"
    (fun _ _ _ h => SearchOutcome.noConfusion h)

/-- The freshness guard in arithmetic form: Python's floored
`timedelta.days` exceeds 10 exactly when the difference is at least 11 whole
days. -/
theorem fdiv_day_guard (d : Int) : d.fdiv 86400 > 10 ↔ d ≥ 11 * 86400 := by
  rw [Int.fdiv_eq_ediv _ (by norm_num)]
  omega

/-- C4 counterexample: a start date 10.5 days after the current wall-clock
time is "more than 10 days after" it, yet the weather lookup does not return
the near-future sentinel and does hand a query to the web-search tool — the
code's floored-day guard only fires from 11 whole days on. -/
theorem C4_counterexample :
    ((907200 : Int) - 0 > 10 * 86400)
    ∧ (search_weather_forecast cfgUnconfigured netNoItems 0 "Seoul, Korea" 907200).2 ≠ []
    ∧ (search_weather_forecast cfgUnconfigured netNoItems 0 "Seoul, Korea" 907200).1 ≠ nearFutureSentinel := by
  refine ⟨by norm_num, ?_, ?_⟩ <;> decide

/-- C4 (amended): the guard skips the call exactly when the start date is at
least 11 whole days (floored day difference greater than 10) after the
current wall-clock time, returning the fixed near-future sentinel and
issuing no query; otherwise the lookup issues exactly the query
`"weather forecast for {location} on {start date}"`. -/
theorem C4_weather_guard (cfg : SearchConfig) (net : String → Nat → SearchOutcome)
    (now : Int) (location : String) (start_dt : Int) :
    (start_dt - now ≥ 11 * 86400 →
      search_weather_forecast cfg net now location start_dt = (nearFutureSentinel, []))
    ∧ (start_dt - now < 11 * 86400 →
      search_weather_forecast cfg net now location start_dt
        = (execute_web_search cfg net (weatherQuery location start_dt),
           [weatherQuery location start_dt])) := by
  constructor
  · intro h
    unfold search_weather_forecast
    rw [if_pos ((fdiv_day_guard (start_dt - now)).mpr h)]
  · intro h
    unfold search_weather_forecast
    rw [if_neg (fun hc => absurd ((fdiv_day_guard (start_dt - now)).mp hc) (by omega))]

/-- Witness for C4 (amended) at concrete inputs on both sides of the
guard. -/
theorem C4_weather_guard_witness :
    search_weather_forecast cfgUnconfigured netNoItems 0 "Seoul, Korea" (11 * 86400) = (nearFutureSentinel, [])
    ∧ search_weather_forecast cfgUnconfigured netNoItems 0 "Seoul, Korea" 907200
        = (execute_web_search cfgUnconfigured netNoItems (weatherQuery "Seoul, Korea" 907200),
           [weatherQuery "Seoul, Korea" 907200]) :=
  ⟨(C4_weather_guard cfgUnconfigured netNoItems 0 "Seoul, Korea" (11 * 86400)).1 (by norm_num),
   (C4_weather_guard cfgUnconfigured netNoItems 0 "Seoul, Korea" 907200).2 (by norm_num)⟩

-- ------------------------------------------------------------------
-- External-context gathering (ai_engine.py, run_recommendation_agent
-- lines 244-252)
-- ------------------------------------------------------------------

/-- `OUTDOOR_KEYWORDS` from ai_engine.py. -/
def OUTDOOR_KEYWORDS : List String :=
  ["run", "hike", "outside", "picnic", "walk", "cycling", "park",
   "달리기", "등산", "산책", "소풍", "야외", "자전거", "공원"]

/-- `any(keyword in req.prompt.lower() for keyword in OUTDOOR_KEYWORDS)`. -/
def is_outdoor_request (prompt : String) : Bool :=
  OUTDOOR_KEYWORDS.any (fun k => strContains (pyLower prompt) k)

def holidaysNotAvailable : String :=
  "Not available. User location not set."

def weatherNotAvailable : String :=
  "Not available. User location not set or not an outdoor activity."

/-- An invocation of one of the two wrapped search tools. -/
inductive ExtCall where
  | holidaySearch (location : String)
  | weatherSearch (location : String)
deriving DecidableEq, Repr

/-- The external-information step of `run_recommendation_agent`: the two
sentinel defaults, the Python-truthiness test on `persona.location`, the
unconditional holiday search and the keyword-guarded weather search.  The
third component records which wrapped tools were invoked, in order. -/
def gather_external_context (cfg : SearchConfig) (net : String → Nat → SearchOutcome)
    (now : Int) (location : Option String) (prompt : String) (start_dt : Int) :
    String × String × List ExtCall :=
  match location with
  | none => (holidaysNotAvailable, weatherNotAvailable, [])
  | some loc =>
    if loc = "" then
      (holidaysNotAvailable, weatherNotAvailable, [])
    else
      let holidays := search_public_holidays cfg net loc start_dt
      if is_outdoor_request prompt then
        (holidays, (search_weather_forecast cfg net now loc start_dt).1,
         [ExtCall.holidaySearch loc, ExtCall.weatherSearch loc])
      else
        (holidays, weatherNotAvailable, [ExtCall.holidaySearch loc])

/-- C2: the external-search decision is the fixed two-branch table.  With
`persona.location` absent (falsy), no tool is invoked and both context
fields are the fixed "not available" sentinels.  With a (truthy) location,
the holiday search is invoked exactly once, and the weather search is
invoked — exactly once — precisely when the request's goal contains one of
the fixed case-insensitive outdoor keywords. -/
theorem C2_search_decision_table (cfg : SearchConfig) (net : String → Nat → SearchOutcome)
    (now : Int) (location : Option String) (prompt : String) (start_dt : Int) :
    (optTruthy location = false →
      gather_external_context cfg net now location prompt start_dt
        = (holidaysNotAvailable, weatherNotAvailable, []))
    ∧ (∀ loc, location = some loc → loc ≠ "" →
        ((gather_external_context cfg net now location prompt start_dt).2.2.count
            (ExtCall.holidaySearch loc) = 1)
        ∧ (is_outdoor_request prompt = true →
            (gather_external_context cfg net now location prompt start_dt).2.2.count
                (ExtCall.weatherSearch loc) = 1
            ∧ gather_external_context cfg net now location prompt start_dt
                = (search_public_holidays cfg net loc start_dt,
                   (search_weather_forecast cfg net now loc start_dt).1,
                   [ExtCall.holidaySearch loc, ExtCall.weatherSearch loc]))
        ∧ (is_outdoor_request prompt = false →
            gather_external_context cfg net now location prompt start_dt
              = (search_public_holidays cfg net loc start_dt, weatherNotAvailable,
                 [ExtCall.holidaySearch loc]))) := by
  constructor
  · intro hfalsy
    cases location with
    | none => rfl
    | some loc =>
      have hempty : loc = "" := by
        simpa [optTruthy] using hfalsy
      simp [gather_external_context, hempty]
  · intro loc hloc hne
    subst hloc
    refine ⟨?_, ?_, ?_⟩
    · cases ho : is_outdoor_request prompt <;>
        simp [gather_external_context, hne, ho, List.count_cons, beq_iff_eq]
    · intro ho
      constructor
      · simp [gather_external_context, hne, ho, List.count_cons, beq_iff_eq]
      · simp [gather_external_context, hne, ho]
    · intro ho
      simp [gather_external_context, hne, ho]

/-- Witness for C2: location absent on one side; location
`"Seoul, Korea"` with the outdoor goal `"I want to go for a run"` on the
other. -/
theorem C2_search_decision_table_witness :
    gather_external_context cfgUnconfigured netNoItems 0 none "plan my week" 0
      = (holidaysNotAvailable, weatherNotAvailable, [])
    ∧ (gather_external_context cfgUnconfigured netNoItems 0 (some "Seoul, Korea")
        "I want to go for a run" 0).2.2.count (ExtCall.holidaySearch "Seoul, Korea") = 1
    ∧ (gather_external_context cfgUnconfigured netNoItems 0 (some "Seoul, Korea")
        "I want to go for a run" 0).2.2.count (ExtCall.weatherSearch "Seoul, Korea") = 1 := by
  have h1 := (C2_search_decision_table cfgUnconfigured netNoItems 0 none "plan my week" 0).1 rfl
  have h2 := (C2_search_decision_table cfgUnconfigured netNoItems 0 (some "Seoul, Korea")
    "I want to go for a run" 0).2 "Seoul, Korea" rfl (by decide)
  exact ⟨h1, h2.1, (h2.2.1 (by decide)).1⟩

-- ------------------------------------------------------------------
-- Prompt builders (ai_engine.py, section 2)
-- ------------------------------------------------------------------

/-- `_format_persona_for_prompt`.  A `None` focus duration prints as
`"None"` exactly as a Python f-string would; a falsy location omits the
location line. -/
def format_persona_for_prompt (p : Persona) : String :=
  let location_info :=
    match p.location with
    | some loc => if loc = "" then "" else "\n- Location: " ++ loc
    | none => ""
  "- Persona: " ++ p.persona_text
    ++ "\n- Preferred Times: " ++ pyJoin ", " (p.preferred_times.getD [])
    ++ "\n- Typical Focus Duration: " ++ pyStrOpt p.focus_duration
    ++ location_info ++ "\n"

/-- `_format_schedules_for_prompt`. -/
def format_schedules_for_prompt (schedules : List Schedule) : String :=
  if schedules.isEmpty then "No existing schedules."
  else
    pyJoin "\n" (schedules.map (fun s =>
      "- " ++ s.title ++ " from " ++ ymdHmStr s.start_datetime
        ++ " to " ++ ymdHmStr s.end_datetime))

/-- `_format_schedule_history_for_prompt`. -/
def format_schedule_history_for_prompt (schedules : List Schedule) : String :=
  if schedules.isEmpty then "No schedules found in the last 30 days."
  else
    pyJoin "\n" (schedules.map (fun s =>
      "- Date: " ++ ymdStr s.start_datetime ++ ", Title: " ++ s.title
        ++ ", Completed: " ++ (if s.is_completed then "Yes" else "No")))

/-- `_build_final_prompt`: `FINAL_RECOMMENDATION_PROMPT_TEMPLATE.format(...)`
written out as the concatenation of the template's fixed text with the five
formatted fragments.  The request's date fields are interpolated as the raw
request strings, as in the source. -/
def build_final_prompt (persona : Persona) (schedules : List Schedule)
    (req : AIRecommendationRequest) (holidays weather : String) : String :=
  "\nYou are a helpful AI assistant that creates a schedule based on user requests.\nAnalyze all the provided context to create an optimized and practical plan.\n\n# User Persona\n"
    ++ format_persona_for_prompt persona
    ++ "\n\n# External Context\n- Public Holidays: " ++ holidays
    ++ "\n- Weather Forecast: " ++ weather
    ++ "\n\n# Existing Schedules in the requested period\n"
    ++ format_schedules_for_prompt schedules
    ++ "\n\n# User Request\n- Goal: \"" ++ req.prompt
    ++ "\"\n- Period: " ++ req.start_date ++ " to " ++ req.end_date
    ++ "\n\n# Instructions\n1. Do not overlap with existing schedules.\n2. Do not schedule work-related tasks on public holidays.\n3. Do not schedule outdoor activities on days with bad weather (e.g., rain, storm).\n4. Prioritize the user's preferred times if possible.\n5. Create schedule blocks that respect the user's focus duration.\n6. Generate a concrete and actionable plan.\n7. Provide a reason for each recommended schedule.\n\n# Output Format\nProvide the output in a strict JSON format. Do not add any text before or after the JSON block.\nThe JSON object must have two keys: \"schedules\" and \"summary\".\n- \"schedules\": A list of objects, where each object has \"title\", \"date\" (YYYY-MM-DD), \"start_time\" (HH:MM), \"end_time\" (HH:MM), and \"reason\".\n- \"summary\": A brief summary of the generated plan.\n\nExample:\n\x7b\n  \"schedules\": [\n    \x7b\n      \"title\": \"Project Planning\",\n      \"date\": \"2025-11-20\",\n      \"start_time\": \"19:30\",\n      \"end_time\": \"21:30\",\n      \"reason\": \"Evening is a preferred time, and this 2-hour block matches the focus duration.\"\n    \x7d\n  ],\n  \"summary\": \"Scheduled project planning for 2 hours in the evening to kickstart your goal.\"\n\x7d\n"

/-- `_build_persona_update_prompt`:
`PERSONA_UPDATE_PROMPT_TEMPLATE.format(...)` written out the same way. -/
def build_persona_update_prompt (persona : Persona) (history : List Schedule) : String :=
  "\nYou are a productivity analyst AI. Your task is to update a user's persona based on their recent activity.\nAnalyze the original persona and the user's schedule history from the last 30 days.\nIdentify patterns, such as the time of day they are most productive, the types of tasks they complete successfully, and the tasks they tend to miss.\nGenerate a new, updated persona description that merges the user's core identity with these new data-driven insights.\nThe new persona should be a more accurate and nuanced reflection of the user's actual behavior.\n\n- The user's preferred times and focus duration should be preserved unless the data strongly suggests a change.\n- The output must be a single, continuous block of text for the new persona. Do not output anything else.\n\n# Original Persona\n"
    ++ format_persona_for_prompt persona
    ++ "\n\n# Recent Schedule History (Last 30 Days)\n"
    ++ format_schedule_history_for_prompt history
    ++ "\n\n# Updated Persona Description:\n"

-- ------------------------------------------------------------------
-- json.loads and pydantic validation (ai_engine.py lines 269-273,
-- schemas.py AIRecommendationResponse)
-- ------------------------------------------------------------------

/-- Wire-format JSON values.  Numbers are modelled as integers; no claim
involves fractional numbers. -/
inductive Json where
  | null
  | bool (b : Bool)
  | num (n : Int)
  | str (s : String)
  | arr (elems : List Json)
  | obj (fields : List (String × Json))

def jsonSkipWs : List Char → List Char
  | c :: cs => if c = ' ' ∨ c = '\n' ∨ c = '\t' ∨ c = '\r' then jsonSkipWs cs else c :: cs
  | [] => []

def jsonEscape : Char → Option Char
  | '"' => some '"'
  | '\\' => some '\\'
  | '/' => some '/'
  | 'b' => some (Char.ofNat 8)
  | 'f' => some (Char.ofNat 12)
  | 'n' => some '\n'
  | 'r' => some '\r'
  | 't' => some '\t'
  | _ => none

/-- The body of a JSON string literal, after the opening quote. -/
def jsonStringRest (acc : List Char) : List Char → Option (String × List Char)
  | [] => none
  | '"' :: rest => some (String.mk acc.reverse, rest)
  | '\\' :: rest =>
    match rest with
    | [] => none
    | e :: rest' =>
      match jsonEscape e with
      | some c => jsonStringRest (c :: acc) rest'
      | none => none
  | c :: rest => jsonStringRest (c :: acc) rest

/-- A JSON number (integer form). -/
def jsonNumber (cs : List Char) : Option (Json × List Char) :=
  let sign : Bool × List Char :=
    match cs with
    | '-' :: rest => (true, rest)
    | _ => (false, cs)
  let digits := sign.2.takeWhile Char.isDigit
  let rest := sign.2.dropWhile Char.isDigit
  if digits.isEmpty then none
  else
    match rest with
    | '.' :: _ => none
    | 'e' :: _ => none
    | 'E' :: _ => none
    | _ =>
      let n : Nat := digits.foldl (fun acc c => acc * 10 + (c.toNat - 48)) 0
      some (Json.num (if sign.1 then -(n : Int) else (n : Int)), rest)

inductive JsonMode where
  | value
  | arrayItems
  | arrayCont
  | objectFields
  | objectPair
  | objectCont

inductive JsonPiece where
  | val (j : Json) (rest : List Char)
  | items (xs : List Json) (rest : List Char)
  | fields (xs : List (String × Json)) (rest : List Char)

/-- Fuelled recursive-descent JSON reader (the fuel keeps the recursion
structural; `json_loads` supplies more fuel than any input can consume). -/
def jsonParseCore : Nat → JsonMode → List Char → Option JsonPiece
  | 0, _, _ => none
  | fuel + 1, JsonMode.value, cs =>
    match jsonSkipWs cs with
    | 'n' :: 'u' :: 'l' :: 'l' :: rest => some (JsonPiece.val Json.null rest)
    | 't' :: 'r' :: 'u' :: 'e' :: rest => some (JsonPiece.val (Json.bool true) rest)
    | 'f' :: 'a' :: 'l' :: 's' :: 'e' :: rest => some (JsonPiece.val (Json.bool false) rest)
    | '"' :: rest =>
      (match jsonStringRest [] rest with
       | some (s, rest') => some (JsonPiece.val (Json.str s) rest')
       | none => none)
    | '[' :: rest =>
      (match jsonParseCore fuel JsonMode.arrayItems rest with
       | some (JsonPiece.items xs rest') => some (JsonPiece.val (Json.arr xs) rest')
       | _ => none)
    | '{' :: rest =>
      (match jsonParseCore fuel JsonMode.objectFields rest with
       | some (JsonPiece.fields xs rest') => some (JsonPiece.val (Json.obj xs) rest')
       | _ => none)
    | cs' =>
      (match jsonNumber cs' with
       | some (j, rest) => some (JsonPiece.val j rest)
       | none => none)
  | fuel + 1, JsonMode.arrayItems, cs =>
    match jsonSkipWs cs with
    | ']' :: rest => some (JsonPiece.items [] rest)
    | cs' =>
      (match jsonParseCore fuel JsonMode.value cs' with
       | some (JsonPiece.val j rest) =>
         (match jsonParseCore fuel JsonMode.arrayCont rest with
          | some (JsonPiece.items xs rest') => some (JsonPiece.items (j :: xs) rest')
          | _ => none)
       | _ => none)
  | fuel + 1, JsonMode.arrayCont, cs =>
    match jsonSkipWs cs with
    | ']' :: rest => some (JsonPiece.items [] rest)
    | ',' :: rest =>
      (match jsonParseCore fuel JsonMode.value rest with
       | some (JsonPiece.val j rest') =>
         (match jsonParseCore fuel JsonMode.arrayCont rest' with
          | some (JsonPiece.items xs rest'') => some (JsonPiece.items (j :: xs) rest'')
          | _ => none)
       | _ => none)
    | _ => none
  | fuel + 1, JsonMode.objectFields, cs =>
    match jsonSkipWs cs with
    | '}' :: rest => some (JsonPiece.fields [] rest)
    | cs' => jsonParseCore fuel JsonMode.objectPair cs'
  | fuel + 1, JsonMode.objectPair, cs =>
    match jsonSkipWs cs with
    | '"' :: rest =>
      (match jsonStringRest [] rest with
       | some (k, rest') =>
         (match jsonSkipWs rest' with
          | ':' :: rest'' =>
            (match jsonParseCore fuel JsonMode.value rest'' with
             | some (JsonPiece.val v rest''') =>
               (match jsonParseCore fuel JsonMode.objectCont rest''' with
                | some (JsonPiece.fields xs rest'''') =>
                  some (JsonPiece.fields ((k, v) :: xs) rest'''')
                | _ => none)
             | _ => none)
          | _ => none)
       | none => none)
    | _ => none
  | fuel + 1, JsonMode.objectCont, cs =>
    match jsonSkipWs cs with
    | '}' :: rest => some (JsonPiece.fields [] rest)
    | ',' :: rest => jsonParseCore fuel JsonMode.objectPair rest
    | _ => none

/-- `json.loads`: parse one JSON value and insist on only trailing
whitespace after it. -/
def json_loads (s : String) : Option Json :=
  match jsonParseCore (4 * s.length + 8) JsonMode.value s.toList with
  | some (JsonPiece.val j rest) => if (jsonSkipWs rest).isEmpty then some j else none
  | _ => none

/-- Field lookup in a parsed object.  `json.loads` builds a `dict`, where a
repeated key keeps its last value. -/
def lookupLast (fields : List (String × Json)) (key : String) : Option Json :=
  fields.foldl (fun acc p => if p.1 = key then some p.2 else acc) none

/-- pydantic's lax validation of an annotated `str` field on JSON-derived
data: only a JSON string is accepted. -/
def asString : Json → Option String
  | Json.str s => some s
  | _ => none

/-- Validation of `AIRecommendationResponseSchedule`: an object with the
five required string fields; unknown keys are ignored (pydantic's default
`extra='ignore'`). -/
def validateScheduleItem (j : Json) : Option AIRecommendationResponseSchedule :=
  match j with
  | Json.obj fields => do
    let title ← (lookupLast fields "title").bind asString
    let date ← (lookupLast fields "date").bind asString
    let st ← (lookupLast fields "start_time").bind asString
    let et ← (lookupLast fields "end_time").bind asString
    let reason ← (lookupLast fields "reason").bind asString
    pure { title := title, date := date, start_time := st, end_time := et, reason := reason }
  | _ => none

/-- Validation of `AIRecommendationResponse` (`AIRecommendationResponse(**result)`):
an object with a `schedules` list of valid items and a string `summary`;
unknown keys are ignored, missing keys and wrong types fail. -/
def validateResponse (j : Json) : Option AIRecommendationResponse :=
  match j with
  | Json.obj fields =>
    match lookupLast fields "schedules" with
    | some (Json.arr xs) =>
      (match xs.mapM validateScheduleItem with
       | some items =>
         (match lookupLast fields "summary" with
          | some sv =>
            (match asString sv with
             | some summary => some { schedules := items, summary := summary }
             | none => none)
          | none => none)
       | none => none)
    | _ => none
  | _ => none

/-- `response.text.strip().replace("```json", "").replace("```", "").strip()`. -/
def cleanResponseText (s : String) : String :=
  pyStrip (pyReplace (pyReplace (pyStrip s) "```json" "") "```" "")

/-- The complete response-parsing step of `run_recommendation_agent`:
`None` is any exception path (`json.JSONDecodeError` or pydantic
`ValidationError`), which the source turns into the terminal HTTP 500. -/
def parseRecommendation (raw : String) : Option AIRecommendationResponse :=
  (json_loads (cleanResponseText raw)).bind validateResponse

-- ------------------------------------------------------------------
-- The two orchestrators (ai_engine.py, section 4)
-- ------------------------------------------------------------------

/-- The terminal failures of the orchestrators, one constructor per raise
site of the source. -/
inductive AgentError where
  | personaNotSet
  | invalidDateFormat
  | geminiKeyMissing
  | recommendationFailed (diagnostic : String)
  | personaUpdateFailed (diagnostic : String)
deriving DecidableEq, Repr

/-- HTTP status of each failure, as raised by the source. -/
def AgentError.status : AgentError → Nat
  | AgentError.personaNotSet => 400
  | AgentError.invalidDateFormat => 400
  | AgentError.geminiKeyMissing => 500
  | AgentError.recommendationFailed _ => 500
  | AgentError.personaUpdateFailed _ => 500

/-- `detail` string of each failure, as raised by the source (the dynamic
exception text is the constructor's payload). -/
def AgentError.detail : AgentError → String
  | AgentError.personaNotSet => "Persona not set. Please create a persona first."
  | AgentError.invalidDateFormat => "Invalid date format. Use YYYY-MM-DD."
  | AgentError.geminiKeyMissing => "GEMINI_API_KEY is not configured."
  | AgentError.recommendationFailed e => "Failed to get recommendation from AI: " ++ e
  | AgentError.personaUpdateFailed e => "Failed to update persona using AI: " ++ e

/-- `run_recommendation_agent`: persona precondition, date parsing,
schedule query, external context, prompt build, key check, model call,
response parsing/validation — strictly in source order.  The store is
threaded through and returned so that (absent) writes are observable;
`llm` models `generate_content` plus the `response.text` access (its
`Except.error` is any exception raised there). -/
def run_recommendation_agent (cfg : SearchConfig) (net : String → Nat → SearchOutcome)
    (gemini_api_key : Option String) (llm : String → Except String String)
    (now : Int) (req : AIRecommendationRequest) (db : Db) :
    Db × Except AgentError AIRecommendationResponse :=
  match get_persona db with
  | none => (db, Except.error AgentError.personaNotSet)
  | some persona =>
    match parseIsoDate req.start_date, parseIsoDate req.end_date with
    | some start_dt, some end_dt =>
      let existing := get_schedules_by_date_range db.schedules start_dt end_dt
      let ctx := gather_external_context cfg net now persona.location req.prompt start_dt
      let prompt := build_final_prompt persona existing req ctx.1 ctx.2.1
      if optTruthy gemini_api_key then
        match llm prompt with
        | Except.ok raw =>
          match parseRecommendation raw with
          | some validated => (db, Except.ok validated)
          | none => (db, Except.error (AgentError.recommendationFailed raw))
        | Except.error msg => (db, Except.error (AgentError.recommendationFailed msg))
      else (db, Except.error AgentError.geminiKeyMissing)
    | _, _ => (db, Except.error AgentError.invalidDateFormat)

/-- `run_persona_update_agent`: persona precondition, trailing 30-day
history window from the wall clock, prompt build, key check, model call,
merge-and-persist via the upsert. -/
def run_persona_update_agent (gemini_api_key : Option String)
    (llm : String → Except String String) (now : Int) (db : Db) :
    Db × Except AgentError Persona :=
  match get_persona db with
  | none => (db, Except.error AgentError.personaNotSet)
  | some persona =>
    let start_date := now - 30 * 86400
    let history := get_schedules_by_date_range db.schedules start_date now
    let prompt := build_persona_update_prompt persona history
    if optTruthy gemini_api_key then
      match llm prompt with
      | Except.ok text =>
        let updated_text := pyStrip text
        let data : PersonaCreate :=
          { persona_text := updated_text
            preferred_times := persona.preferred_times
            focus_duration := persona.focus_duration
            location := persona.location }
        let res := create_or_update_persona db now data
        (res.1, Except.ok res.2)
      | Except.error msg => (db, Except.error (AgentError.personaUpdateFailed msg))
    else (db, Except.error AgentError.geminiKeyMissing)

-- ------------------------------------------------------------------
-- Facts about the recommendation orchestrator
-- ------------------------------------------------------------------

/-- Every branch of the recommendation agent returns the store unchanged:
the flow never writes a schedule (or anything else). -/
theorem run_rec_store_unchanged (cfg : SearchConfig) (net : String → Nat → SearchOutcome)
    (gk : Option String) (llm : String → Except String String)
    (now : Int) (req : AIRecommendationRequest) (db : Db) :
    (run_recommendation_agent cfg net gk llm now req db).1 = db := by
  unfold run_recommendation_agent
  split
  · rfl
  · split
    · dsimp only
      split
      · split
        · split <;> rfl
        · rfl
      · rfl
    · rfl

/-- A successful recommendation is exactly a parsed-and-validated model
response: the flow succeeds only with the full validation result of some
raw text the model returned. -/
theorem run_rec_ok_validated (cfg : SearchConfig) (net : String → Nat → SearchOutcome)
    (gk : Option String) (llm : String → Except String String)
    (now : Int) (req : AIRecommendationRequest) (db : Db)
    (r : AIRecommendationResponse)
    (h : (run_recommendation_agent cfg net gk llm now req db).2 = Except.ok r) :
    ∃ prompt raw, llm prompt = Except.ok raw ∧ parseRecommendation raw = some r := by
  unfold run_recommendation_agent at h
  split at h
  · simp at h
  · split at h
    · dsimp only at h
      split at h
      · split at h
        · split at h
          · simp at h
            subst h
            exact ⟨_, _, by assumption, by assumption⟩
          · simp at h
        · simp at h
      · simp at h
    · simp at h

/-- C6: with no persona in the store, `recommend()` fails with the
persona-missing precondition error (HTTP 400, "Persona not set") for every
request — valid or not — and returns the store untouched, so no default
persona is materialized at call time. -/
theorem C6_no_persona_precondition (cfg : SearchConfig) (net : String → Nat → SearchOutcome)
    (gk : Option String) (llm : String → Except String String)
    (now : Int) (req : AIRecommendationRequest) (db : Db)
    (h : get_persona db = none) :
    run_recommendation_agent cfg net gk llm now req db
      = (db, Except.error AgentError.personaNotSet) := by
  unfold run_recommendation_agent
  rw [h]

/-- Witness for C6: an empty store and a well-formed request. -/
theorem C6_no_persona_precondition_witness :
    run_recommendation_agent cfgUnconfigured netNoItems (some "key")
      (fun _ => Except.ok "irrelevant") 0
      { prompt := "plan my week", start_date := "2025-12-01", end_date := "2025-12-07" }
      { persona := none, schedules := [] }
      = ({ persona := none, schedules := [] }, Except.error AgentError.personaNotSet) :=
  C6_no_persona_precondition cfgUnconfigured netNoItems (some "key")
    (fun _ => Except.ok "irrelevant") 0
    { prompt := "plan my week", start_date := "2025-12-01", end_date := "2025-12-07" }
    { persona := none, schedules := [] } rfl

/-- C10: the persona-existence check precedes date parsing — when the
persona is missing and both date strings are malformed, the call fails with
the persona-missing error, not the malformed-date error. -/
theorem C10_persona_check_first (cfg : SearchConfig) (net : String → Nat → SearchOutcome)
    (gk : Option String) (llm : String → Except String String)
    (now : Int) (req : AIRecommendationRequest) (db : Db)
    (hp : get_persona db = none)
    (_hs : parseIsoDate req.start_date = none)
    (_he : parseIsoDate req.end_date = none) :
    (run_recommendation_agent cfg net gk llm now req db).2 = Except.error AgentError.personaNotSet
    ∧ (run_recommendation_agent cfg net gk llm now req db).2 ≠ Except.error AgentError.invalidDateFormat := by
  unfold run_recommendation_agent
  rw [hp]
  exact ⟨rfl, by simp⟩

/-- Witness for C10: empty store, unparseable date strings. -/
theorem C10_persona_check_first_witness :
    (run_recommendation_agent cfgUnconfigured netNoItems (some "key")
        (fun _ => Except.ok "irrelevant") 0
        { prompt := "x", start_date := "not-a-date", end_date := "12/01/2025" }
        { persona := none, schedules := [] }).2 = Except.error AgentError.personaNotSet
    ∧ (run_recommendation_agent cfgUnconfigured netNoItems (some "key")
        (fun _ => Except.ok "irrelevant") 0
        { prompt := "x", start_date := "not-a-date", end_date := "12/01/2025" }
        { persona := none, schedules := [] }).2 ≠ Except.error AgentError.invalidDateFormat :=
  C10_persona_check_first cfgUnconfigured netNoItems (some "key")
    (fun _ => Except.ok "irrelevant") 0
    { prompt := "x", start_date := "not-a-date", end_date := "12/01/2025" }
    { persona := none, schedules := [] } rfl (by decide) (by decide)

/-- C8: the recommendation flow has no partial success — it returns either
a fully parsed-and-validated recommendation (the validation of some raw
model output) or a terminal error, and in every case the store is returned
unchanged: no schedule record is created, modified or deleted (persisting
recommendations is a separate client action). -/
theorem C8_no_partial_success (cfg : SearchConfig) (net : String → Nat → SearchOutcome)
    (gk : Option String) (llm : String → Except String String)
    (now : Int) (req : AIRecommendationRequest) (db : Db) :
    (run_recommendation_agent cfg net gk llm now req db).1 = db
    ∧ ((∃ r, (run_recommendation_agent cfg net gk llm now req db).2 = Except.ok r
          ∧ ∃ prompt raw, llm prompt = Except.ok raw ∧ parseRecommendation raw = some r)
       ∨ (∃ e, (run_recommendation_agent cfg net gk llm now req db).2 = Except.error e)) := by
  refine ⟨run_rec_store_unchanged cfg net gk llm now req db, ?_⟩
  cases hres : (run_recommendation_agent cfg net gk llm now req db).2 with
  | ok r => exact Or.inl ⟨r, rfl, run_rec_ok_validated cfg net gk llm now req db r hres⟩
  | error e => exact Or.inr ⟨e, rfl⟩

-- ------------------------------------------------------------------
-- Persona-update agent: field preservation (C7) and the persona_text
-- invariant (C9)
-- ------------------------------------------------------------------

/-- C7: whenever the persona-update flow succeeds, the stored result keeps
`preferred_times`, `focus_duration` and `location` (and `id` and
`created_at`) exactly as in the pre-update persona, stamps `updated_at`
with the clock, and its `persona_text` is verbatim the stripped text the
model returned — no other field is derived from the model output. -/
theorem C7_persona_update_preserves_fields (gk : Option String)
    (llm : String → Except String String) (now : Int) (db : Db)
    (persona p' : Persona)
    (hp : get_persona db = some persona)
    (hok : (run_persona_update_agent gk llm now db).2 = Except.ok p') :
    p'.preferred_times = persona.preferred_times
    ∧ p'.focus_duration = persona.focus_duration
    ∧ p'.location = persona.location
    ∧ p'.id = persona.id
    ∧ p'.created_at = persona.created_at
    ∧ p'.updated_at = some now
    ∧ ∃ raw, llm (build_persona_update_prompt persona
          (get_schedules_by_date_range db.schedules (now - 30 * 86400) now)) = Except.ok raw
        ∧ p'.persona_text = pyStrip raw := by
  have hp' : db.persona = some persona := hp
  unfold run_persona_update_agent at hok
  rw [hp] at hok
  dsimp only at hok
  split at hok
  · split at hok
    · simp only [create_or_update_persona, hp'] at hok
      simp at hok
      subst hok
      exact ⟨rfl, rfl, rfl, rfl, rfl, rfl, _, by assumption, rfl⟩
    · simp at hok
  · simp at hok

/-- The seeded-style persona used by concrete witnesses. -/
def personaSeoul : Persona :=
  { id := 1
    persona_text := "A diligent office worker."
    preferred_times := some ["morning", "evening"]
    focus_duration := some "1hour"
    location := some "Seoul, Korea"
    created_at := 0
    updated_at := none }

def dbSeoul : Db := { persona := some personaSeoul, schedules := [] }

/-- A model stub returning a fixed persona text with surrounding blanks. -/
def llmPersonaText : String → Except String String :=
  fun _ => Except.ok "  An updated persona.  "

/-- The record the persona-update flow produces from `dbSeoul` with
`llmPersonaText` at clock 5. -/
def personaSeoulUpdated : Persona :=
  { personaSeoul with persona_text := "An updated persona.", updated_at := some 5 }

/-- Witness for C7 at a concrete store, clock and model stub. -/
theorem C7_persona_update_preserves_fields_witness :
    personaSeoulUpdated.preferred_times = personaSeoul.preferred_times
    ∧ personaSeoulUpdated.focus_duration = personaSeoul.focus_duration
    ∧ personaSeoulUpdated.location = personaSeoul.location
    ∧ personaSeoulUpdated.id = personaSeoul.id
    ∧ personaSeoulUpdated.created_at = personaSeoul.created_at
    ∧ personaSeoulUpdated.updated_at = some 5
    ∧ ∃ raw, llmPersonaText (build_persona_update_prompt personaSeoul
          (get_schedules_by_date_range dbSeoul.schedules (5 - 30 * 86400) 5)) = Except.ok raw
        ∧ personaSeoulUpdated.persona_text = pyStrip raw :=
  C7_persona_update_preserves_fields (some "key") llmPersonaText 5 dbSeoul
    personaSeoul personaSeoulUpdated rfl rfl

/-- A persona whose text is non-empty, for the C9 refutation. -/
def personaX : Persona :=
  { id := 1
    persona_text := "X"
    preferred_times := none
    focus_duration := none
    location := none
    created_at := 0
    updated_at := none }

def dbX : Db := { persona := some personaX, schedules := [] }

/-- An upsert payload whose `persona_text` is the empty string — accepted
by the schema, which only requires the field to be a string. -/
def pcEmptyText : PersonaCreate :=
  { persona_text := "", preferred_times := none, focus_duration := none, location := none }

/-- C9 counterexample: the store holds a persona with non-empty text, yet
the direct upsert happily writes an empty `persona_text` — nothing in the
code enforces non-emptiness, so "every persona write leaves persona_text
non-empty" is false. -/
theorem C9_counterexample :
    personaX.persona_text ≠ ""
    ∧ ((create_or_update_persona dbX 1 pcEmptyText).2).persona_text = ""
    ∧ ((create_or_update_persona dbX 1 pcEmptyText).1).persona
        = some (create_or_update_persona dbX 1 pcEmptyText).2 := by
  refine ⟨by decide, by decide, by decide⟩

/-- C9 (amended): after every persona write the stored record's
`persona_text` is present and equals exactly the supplied text (for the
upsert) or the stripped model output (for the update agent); it is
therefore non-empty precisely when that supplied text is non-empty —
non-emptiness itself is not enforced. -/
theorem C9_persona_text_exact (db : Db) (now : Int) (pc : PersonaCreate) :
    ((create_or_update_persona db now pc).2).persona_text = pc.persona_text
    ∧ ((create_or_update_persona db now pc).1).persona
        = some (create_or_update_persona db now pc).2
    ∧ (pc.persona_text ≠ "" → ((create_or_update_persona db now pc).2).persona_text ≠ "")
    ∧ (∀ gk llm p', (run_persona_update_agent gk llm now db).2 = Except.ok p' →
        ∃ raw, p'.persona_text = pyStrip raw) := by
  refine ⟨?_, ?_, ?_, ?_⟩
  · unfold create_or_update_persona
    cases db.persona <;> rfl
  · unfold create_or_update_persona
    cases db.persona <;> rfl
  · intro hne
    unfold create_or_update_persona
    cases db.persona <;> simpa using hne
  · intro gk llm p' hok
    unfold run_persona_update_agent at hok
    cases hp : get_persona db with
    | none => rw [hp] at hok; simp at hok
    | some persona =>
      rw [hp] at hok
      dsimp only at hok
      split at hok
      · split at hok
        · have hp' : db.persona = some persona := hp
          simp only [create_or_update_persona, hp'] at hok
          simp at hok
          subst hok
          exact ⟨_, rfl⟩
        · simp at hok
      · simp at hok

/-- An upsert payload with non-empty text, for the C9 witness. -/
def pcYText : PersonaCreate :=
  { persona_text := "Y", preferred_times := none, focus_duration := none, location := none }

/-- The record the persona-update flow produces from `dbX` with
`llmPersonaText` at clock 5. -/
def personaXUpdated : Persona :=
  { personaX with persona_text := "An updated persona.", updated_at := some 5 }

/-- Witness for C9 (amended): a non-empty write stays non-empty, and a
successful agent run stores the stripped model text. -/
theorem C9_persona_text_exact_witness :
    ((create_or_update_persona dbX 2 pcYText).2).persona_text ≠ ""
    ∧ ∃ raw, personaXUpdated.persona_text = pyStrip raw :=
  ⟨(C9_persona_text_exact dbX 2 pcYText).2.2.1 (by decide),
   (C9_persona_text_exact dbX 5 pcYText).2.2.2 (some "key") llmPersonaText
     personaXUpdated rfl⟩

-- ------------------------------------------------------------------
-- Response parsing and validation (C1)
-- ------------------------------------------------------------------

/-- The fenced model output from the spec's parsing example. -/
def fencedResponse : String :=
  "```json\n\x7b\"schedules\": [], \"summary\": \"ok\"\x7d\n```"

/-- A response object missing the required `summary` key. -/
def missingSummaryResponse : String := "\x7b\"schedules\": []\x7d"

/-- A response object with the two required keys plus an extra one. -/
def extraKeyResponse : String :=
  "\x7b\"schedules\": [], \"summary\": \"ok\", \"extra\": 1\x7d"

/-- The validated value `{schedules: [], summary: "ok"}`. -/
def okEmptyResponse : AIRecommendationResponse := { schedules := [], summary := "ok" }

/-- A persona with no location, so the concrete recommendation runs involve
no search branching. -/
def personaNoLocation : Persona :=
  { id := 1
    persona_text := "A diligent office worker."
    preferred_times := some ["morning"]
    focus_duration := some "1hour"
    location := none
    created_at := 0
    updated_at := none }

def dbNoLocation : Db := { persona := some personaNoLocation, schedules := [] }

def reqDecember : AIRecommendationRequest :=
  { prompt := "plan my week", start_date := "2025-12-01", end_date := "2025-12-07" }

/-- C1 counterexample: a response with an extra top-level key next to the
two required ones is accepted — the parse succeeds and the whole
recommendation call returns it as a validated success, because pydantic's
default is to ignore unknown keys.  The claim that extra top-level keys
fail validation is false. -/
theorem C1_counterexample :
    parseRecommendation extraKeyResponse = some okEmptyResponse
    ∧ (run_recommendation_agent cfgUnconfigured netNoItems (some "key")
        (fun _ => Except.ok extraKeyResponse) 0 reqDecember dbNoLocation).2
      = Except.ok okEmptyResponse := by
  constructor <;> rfl

/-- C1 (amended): the parser strips surrounding whitespace and code-fence
markers and parses the remainder as JSON; the spec's fenced example parses
to `{schedules: [], summary: "ok"}`, `"not json"` fails, and an object
missing `summary` fails.  Validation requires a `schedules` key holding a
list of valid items and a string `summary` key — unparseable input, missing
keys, or wrong types fail the call — but extra top-level keys are ignored
rather than rejected.  The call succeeds only with such a
parsed-and-validated value. -/
theorem C1_response_validation :
    parseRecommendation fencedResponse = some okEmptyResponse
    ∧ parseRecommendation "not json" = none
    ∧ parseRecommendation missingSummaryResponse = none
    ∧ (∀ j r, validateResponse j = some r →
        ∃ fields, j = Json.obj fields
          ∧ (∃ xs, lookupLast fields "schedules" = some (Json.arr xs)
              ∧ xs.mapM validateScheduleItem = some r.schedules)
          ∧ lookupLast fields "summary" = some (Json.str r.summary))
    ∧ (∀ cfg net gk llm now req db r,
        (run_recommendation_agent cfg net gk llm now req db).2 = Except.ok r →
        ∃ prompt raw, llm prompt = Except.ok raw ∧ parseRecommendation raw = some r) := by
  refine ⟨rfl, rfl, rfl, ?_, ?_⟩
  · intro j r h
    cases j with
    | obj fields =>
      refine ⟨fields, rfl, ?_⟩
      simp only [validateResponse] at h
      cases hsj : lookupLast fields "schedules" with
      | none => rw [hsj] at h; simp at h
      | some sj =>
        rw [hsj] at h
        cases sj with
        | arr xs =>
          dsimp only at h
          cases hmap : xs.mapM validateScheduleItem with
          | none => rw [hmap] at h; simp at h
          | some items =>
            rw [hmap] at h
            cases hsum : lookupLast fields "summary" with
            | none => rw [hsum] at h; simp at h
            | some sv =>
              rw [hsum] at h
              cases sv with
              | str s =>
                simp [asString] at h
                subst h
                exact ⟨⟨xs, rfl, hmap⟩, rfl⟩
              | null => simp [asString] at h
              | bool b => simp [asString] at h
              | num n => simp [asString] at h
              | arr ys => simp [asString] at h
              | obj fs => simp [asString] at h
        | null => simp at h
        | bool b => simp at h
        | num n => simp at h
        | str s => simp at h
        | obj fs => simp at h
    | null => simp [validateResponse] at h
    | bool b => simp [validateResponse] at h
    | num n => simp [validateResponse] at h
    | str s => simp [validateResponse] at h
    | arr xs => simp [validateResponse] at h
  · intro cfg net gk llm now req db r h
    exact run_rec_ok_validated cfg net gk llm now req db r h

/-- The parsed form of the spec's example object. -/
def okEmptyFields : List (String × Json) :=
  [("schedules", Json.arr []), ("summary", Json.str "ok")]

/-- Witness for C1 (amended): the validator clause at the concrete example
object, and the call-level clause at a concrete successful run on the
fenced example. -/
theorem C1_response_validation_witness :
    (∃ fields, Json.obj okEmptyFields = Json.obj fields
      ∧ (∃ xs, lookupLast fields "schedules" = some (Json.arr xs)
          ∧ xs.mapM validateScheduleItem = some okEmptyResponse.schedules)
      ∧ lookupLast fields "summary" = some (Json.str okEmptyResponse.summary))
    ∧ (∃ prompt raw, (fun _ => Except.ok fencedResponse : String → Except String String) prompt
          = Except.ok raw ∧ parseRecommendation raw = some okEmptyResponse) :=
  ⟨C1_response_validation.2.2.2.1 (Json.obj okEmptyFields) okEmptyResponse rfl,
   C1_response_validation.2.2.2.2 cfgUnconfigured netNoItems (some "key")
     (fun _ => Except.ok fencedResponse) 0 reqDecember dbNoLocation okEmptyResponse rfl⟩
